import Mathlib

/-!
Shallow embedding of `.github/scripts/merge_sensor_data.py` (LinuxSan/ESP32Data):
a merge-and-retention engine for sensor snapshot CSV files.

Timestamps are modelled as natural numbers; file paths as strings; CSV rows as
association lists of (column, value) string pairs, exactly as `pandas.read_csv`
presents them.  Python's stable `list.sort` and the lexical `sorted` on paths
are modelled with `List.insertionSort`, which is stable with a weak comparison,
matching Python's documented stable-sort semantics.
-/

namespace ESP32Data

/-! ### String primitives (code-point semantics, kernel-computable) -/

/-- Lexicographic `≤` on character lists by Unicode code point, the order
Python's `sorted` uses on strings. -/
def lexLeChars : List Char → List Char → Bool
  | [], _ => true
  | _ :: _, [] => false
  | a :: as, b :: bs =>
    if a.toNat < b.toNat then true
    else if b.toNat < a.toNat then false
    else lexLeChars as bs

/-- Path order used by `sorted(glob.glob('data/sensor_*.csv'))` at line 114. -/
def pathLe (a b : String) : Prop := lexLeChars a.data b.data = true

instance : DecidableRel pathLe := fun a b =>
  inferInstanceAs (Decidable (lexLeChars a.data b.data = true))

/-- Value of a decimal digit character, `none` for non-digits. -/
def digitVal (c : Char) : Option Nat :=
  if 48 ≤ c.toNat && c.toNat ≤ 57 then some (c.toNat - 48) else none

/-- Parse a non-empty all-digit character list as a natural number
(the numeric reading `pandas` gives an all-numeric CSV column). -/
def parseNatChars (cs : List Char) : Option Nat :=
  match cs with
  | [] => none
  | _ :: _ => cs.foldl (fun acc c => acc.bind fun n => (digitVal c).map fun d => 10 * n + d)
      (some 0)

/-- The glob pattern `sensor_*.csv` used at lines 52 and 114: literal prefix
`sensor_`, then `*` (any characters), then literal suffix `.csv`. -/
def globSensorMatch (name : String) : Bool :=
  List.isPrefixOf "sensor_".data name.data
    && List.isSuffixOf ".csv".data (name.data.drop 7)

/-- `glob.glob(os.path.join(directory, 'sensor_*.csv'))`: the matching entries
of the directory listing, in the listing's (OS-determined) enumeration order. -/
def globSensor (listing : List String) : List String := listing.filter globSensorMatch

/-! ### TimestampProvider (lines 7-42 and 67-86) -/

/-- Recency source recorded in the `(timestamp, filepath, source)` tuples of
`cleanup_sensor_files_by_count` (line 50): `"Git commit time"` or
`"Filesystem modification time (untracked or Git lookup failed)"`. -/
inductive Source where
  | vcsCommitTime
  | filesystemMtime
deriving DecidableEq, Repr

/-- Environment one file presents to the recency logic:
`tracked` is the result of `is_git_tracked` (lines 7-23, `false` on any of its
caught errors); `gitTime` is the result of `get_git_commit_time` (lines 24-42,
`none` on process error, empty output, malformed date or timeout); `mtime` is
`os.path.getmtime` (line 78, `none` when it raises, e.g. the file vanished). -/
structure FileMeta where
  tracked : Bool
  gitTime : Option Nat
  mtime : Option Nat

/-- The per-file recency resolution of lines 67-79: Git commit time first for
tracked files, filesystem mtime when the file is untracked or the Git lookup
failed, `none` when even the mtime is unavailable (the file is then skipped by
the `except` at lines 85-86). -/
def resolveTimestamp (m : FileMeta) : Option (Nat × Source) :=
  match (if m.tracked then m.gitTime else none) with
  | some t => some (t, Source.vcsCommitTime)
  | none =>
    match m.mtime with
    | some t => some (t, Source.filesystemMtime)
    | none => none

/-! ### RetentionPolicy: cleanup_sensor_files_by_count (lines 44-110) -/

/-- One entry of the `file_info` list: `(timestamp, file_path, source)`. -/
abbrev FileInfo := Nat × String × Source

/-- Timestamp-descending order used by
`file_info.sort(key=lambda x: x[0], reverse=True)` (line 94).  Python's sort is
stable and keys only on the timestamp, so ties compare equal both ways. -/
def descTS (a b : FileInfo) : Prop := b.1 ≤ a.1

instance : DecidableRel descTS := fun a b => inferInstanceAs (Decidable (b.1 ≤ a.1))

instance : IsTotal FileInfo descTS := ⟨fun a b => le_total b.1 a.1⟩

instance : IsTrans FileInfo descTS := ⟨fun _ _ _ h1 h2 => le_trans h2 h1⟩

/-- The `file_info` list built by the loop at lines 67-86: one
`(timestamp, path, source)` tuple per discovered file whose recency resolved;
files whose recency cannot be established are skipped entirely. -/
def file_info (env : String → FileMeta) (listing : List String) : List FileInfo :=
  (globSensor listing).filterMap fun f =>
    (resolveTimestamp (env f)).map fun ts => (ts.1, f, ts.2)

/-- `file_info` after the stable descending sort of line 94. -/
def sorted_file_info (env : String → FileMeta) (listing : List String) : List FileInfo :=
  List.insertionSort descTS (file_info env listing)

/-- `files_to_delete = file_info[files_to_keep:]` (line 97). -/
def files_to_delete (env : String → FileMeta) (listing : List String)
    (files_to_keep : Nat) : List FileInfo :=
  (sorted_file_info env listing).drop files_to_keep

/-- `files_to_keep_list = file_info[:files_to_keep]` (line 98). -/
def files_to_keep_list (env : String → FileMeta) (listing : List String)
    (files_to_keep : Nat) : List FileInfo :=
  (sorted_file_info env listing).take files_to_keep

/-- Paths of the keep-list. -/
def keepPaths (env : String → FileMeta) (listing : List String) (n : Nat) : List String :=
  (files_to_keep_list env listing n).map fun x => x.2.1

/-- Paths of the delete-list (the files passed to `os.remove`, lines 105-110). -/
def deletePaths (env : String → FileMeta) (listing : List String) (n : Nat) : List String :=
  (files_to_delete env listing n).map fun x => x.2.1

/-! ### Merger: merge_sensor_files (lines 112-146) -/

/-- One CSV row as `pandas` presents it: ordered (column, value) pairs. -/
abbrev Row := List (String × String)

/-- One loaded CSV file: header columns plus rows (`pd.read_csv`, line 124). -/
structure DataFrame where
  columns : List String
  rows : List Row
deriving DecidableEq

/-- Timestamp key of a row for `sort_values(by=['timestamp'])` (line 136):
the value of the `timestamp` column parsed numerically; `none` when the column
is absent from the row (pandas `NaN`). -/
def timestampKey (r : Row) : Option Nat :=
  (r.lookup "timestamp").bind fun s => parseNatChars s.data

/-- Order on row keys: numeric comparison, with a missing key (`NaN`) sorting
after every present key (pandas default `na_position='last'`). -/
def keyLeB : Option Nat → Option Nat → Bool
  | _, none => true
  | none, some _ => false
  | some x, some y => Nat.ble x y

/-- `keyLeB` as a relation. -/
def keyLe (a b : Option Nat) : Prop := keyLeB a b = true

instance : DecidableRel keyLe := fun a b => inferInstanceAs (Decidable (keyLeB a b = true))

/-- Row order of the final `sort_values(by=['timestamp'])` (line 136). -/
def rowLe (a b : Row) : Prop := keyLe (timestampKey a) (timestampKey b)

instance : DecidableRel rowLe := fun a b =>
  inferInstanceAs (Decidable (keyLe (timestampKey a) (timestampKey b)))

theorem keyLe_total (a b : Option Nat) : keyLe a b ∨ keyLe b a := by
  cases a <;> cases b <;> simp [keyLe, keyLeB] <;> omega

theorem keyLe_trans (a b c : Option Nat) : keyLe a b → keyLe b c → keyLe a c := by
  cases a <;> cases b <;> cases c <;> simp [keyLe, keyLeB] <;> omega

instance : IsTotal Row rowLe := ⟨fun a b => keyLe_total _ _⟩

instance : IsTrans Row rowLe := ⟨fun a b c => keyLe_trans _ _ _⟩

/-- `combined.drop_duplicates(inplace=True)` (line 135): remove rows equal,
field for field, to an earlier row, keeping the first occurrence (pandas
default `keep='first'`).  `seen` accumulates the rows already emitted. -/
def dropDupAux (seen : List Row) : List Row → List Row
  | [] => []
  | r :: rs => if r ∈ seen then dropDupAux seen rs else r :: dropDupAux (r :: seen) rs

/-- Deduplication of the concatenated rows, first occurrence kept. -/
def drop_duplicates (l : List Row) : List Row := dropDupAux [] l

/-- Rows of `pd.concat(dfs)` then `drop_duplicates` then
`sort_values(by=['timestamp'])` (lines 134-136).  The sort is modelled as a
stable sort by the timestamp key; pandas' default quicksort agrees with it on
every list whose keys are pairwise distinct. -/
def merge_rows (dfss : List (List Row)) : List Row :=
  List.insertionSort rowLe (drop_duplicates dfss.flatten)

/-- Outcome of `merge_sensor_files`: `noFiles` and `noValidData` are the two
`return False` branches (lines 116-118, 129-131); `keyError` is the uncaught
`KeyError` that `sort_values(by=['timestamp'])` raises when no loaded frame
has a `timestamp` column; `ok rows` is the canonical dataset written to
`data/sensor_data_combined.csv` before `return True`. -/
inductive MergeResult where
  | noFiles
  | noValidData
  | keyError
  | ok (rows : List Row)
deriving DecidableEq

/-- `merge_sensor_files` (lines 112-146) over an explicit load environment
`env` (`pd.read_csv`: `none` models a raised read error, caught and skipped at
lines 126-127) and the data-directory listing. -/
def merge_sensor_files (env : String → Option DataFrame) (listing : List String) :
    MergeResult :=
  let files := List.insertionSort pathLe (globSensor listing)
  if files.isEmpty then MergeResult.noFiles
  else
    let dfs := files.filterMap env
    if dfs.isEmpty then MergeResult.noValidData
    else if "timestamp" ∈ (dfs.map DataFrame.columns).flatten then
      MergeResult.ok (merge_rows (dfs.map DataFrame.rows))
    else MergeResult.keyError

/-! ### Concrete environments used to instantiate the theorems -/

/-- Directory where `sensor_u.csv` has no resolvable recency (untracked, no
Git time, `getmtime` raises) and `sensor_r.csv` resolves to mtime 5. -/
def envU : String → FileMeta := fun f =>
  if f = "sensor_u.csv" then ⟨false, none, none⟩ else ⟨false, none, some 5⟩

/-- Directory where `sensor_a.csv` has mtime 1 and every other file mtime 9. -/
def env2 : String → FileMeta := fun f =>
  if f = "sensor_a.csv" then ⟨false, none, some 1⟩ else ⟨false, none, some 9⟩

/-- Every file untracked with the same mtime 5: an all-ways timestamp tie. -/
def envT : String → FileMeta := fun _ => ⟨false, none, some 5⟩

/-- The three overlapping snapshot files of the spec's merge scenario. -/
def envC3 : String → Option DataFrame := fun f =>
  if f = "sensor_1.csv" then
    some ⟨["timestamp", "value"],
      [[("timestamp", "1"), ("value", "A")], [("timestamp", "2"), ("value", "B")]]⟩
  else if f = "sensor_2.csv" then
    some ⟨["timestamp", "value"],
      [[("timestamp", "2"), ("value", "B")], [("timestamp", "3"), ("value", "C")]]⟩
  else if f = "sensor_3.csv" then
    some ⟨["timestamp", "value"], [[("timestamp", "1"), ("value", "A")]]⟩
  else none

/-- One well-formed file plus one file whose rows lack the timestamp column. -/
def envM : String → Option DataFrame := fun f =>
  if f = "sensor_a.csv" then
    some ⟨["timestamp", "value"], [[("timestamp", "1"), ("value", "A")]]⟩
  else if f = "sensor_b.csv" then some ⟨["value"], [[("value", "B")]]⟩
  else none

/-- A single readable snapshot file containing a header but zero rows. -/
def envE : String → Option DataFrame := fun f =>
  if f = "sensor_a.csv" then some ⟨["timestamp", "value"], []⟩ else none

/-! ### Helper lemmas -/

theorem mem_dropDupAux (r : Row) :
    ∀ (l seen : List Row), r ∈ dropDupAux seen l ↔ r ∉ seen ∧ r ∈ l
  | [], seen => by simp [dropDupAux]
  | a :: l, seen => by
    by_cases h : a ∈ seen
    · rw [dropDupAux, if_pos h, mem_dropDupAux r l seen]
      constructor
      · rintro ⟨hs, hm⟩
        exact ⟨hs, List.mem_cons_of_mem a hm⟩
      · rintro ⟨hs, hm⟩
        rcases List.mem_cons.mp hm with rfl | hm
        · exact absurd h hs
        · exact ⟨hs, hm⟩
    · rw [dropDupAux, if_neg h]
      constructor
      · intro hm
        rcases List.mem_cons.mp hm with rfl | hm
        · exact ⟨h, List.mem_cons_self r l⟩
        · obtain ⟨hs, hm'⟩ := (mem_dropDupAux r l (a :: seen)).mp hm
          exact ⟨fun hr => hs (List.mem_cons_of_mem a hr), List.mem_cons_of_mem a hm'⟩
      · rintro ⟨hs, hm⟩
        rcases List.mem_cons.mp hm with rfl | hm
        · exact List.mem_cons_self r _
        · by_cases hra : r = a
          · exact hra ▸ List.mem_cons_self a _
          · refine List.mem_cons_of_mem a ((mem_dropDupAux r l (a :: seen)).mpr ⟨?_, hm⟩)
            intro hr
            rcases List.mem_cons.mp hr with h1 | h1
            · exact hra h1
            · exact hs h1

theorem nodup_dropDupAux : ∀ (l seen : List Row), (dropDupAux seen l).Nodup
  | [], _ => List.nodup_nil
  | a :: l, seen => by
    by_cases h : a ∈ seen
    · rw [dropDupAux, if_pos h]
      exact nodup_dropDupAux l seen
    · rw [dropDupAux, if_neg h]
      refine List.Nodup.cons ?_ (nodup_dropDupAux l (a :: seen))
      intro hmem
      exact ((mem_dropDupAux a l (a :: seen)).mp hmem).1 (List.mem_cons_self a seen)

theorem mem_drop_duplicates {l : List Row} {r : Row} : r ∈ drop_duplicates l ↔ r ∈ l := by
  rw [drop_duplicates, mem_dropDupAux]
  simp

theorem nodup_drop_duplicates (l : List Row) : (drop_duplicates l).Nodup :=
  nodup_dropDupAux l []

theorem length_filterMap_of_isSome {α β : Type} (f : α → Option β) :
    ∀ l : List α, (∀ a ∈ l, (f a).isSome) → (l.filterMap f).length = l.length
  | [], _ => rfl
  | a :: l, h => by
    obtain ⟨b, hb⟩ := Option.isSome_iff_exists.mp (h a (List.mem_cons_self a l))
    rw [List.filterMap_cons, hb]
    simp [length_filterMap_of_isSome f l fun x hx => h x (List.mem_cons_of_mem a hx)]

theorem mem_file_info {env : String → FileMeta} {listing : List String}
    {t : Nat} {f : String} {s : Source} :
    (t, f, s) ∈ file_info env listing ↔
      f ∈ globSensor listing ∧ resolveTimestamp (env f) = some (t, s) := by
  simp only [file_info, List.mem_filterMap]
  constructor
  · rintro ⟨g, hg, hmap⟩
    rcases Option.map_eq_some'.mp hmap with ⟨p, hp, heq⟩
    obtain ⟨pt, ps⟩ := p
    obtain ⟨rfl, rfl, rfl⟩ := Prod.mk.injEq .. ▸ heq
    exact ⟨hg, hp⟩
  · rintro ⟨hf, hr⟩
    exact ⟨f, hf, by rw [hr]; rfl⟩

theorem pairwise_take_drop {α : Type} {r : α → α → Prop} {l : List α}
    (h : List.Pairwise r l) (n : Nat) : ∀ a ∈ l.take n, ∀ b ∈ l.drop n, r a b := by
  have h' : List.Pairwise r (l.take n ++ l.drop n) := by
    rw [List.take_append_drop]
    exact h
  exact (List.pairwise_append.mp h').2.2

theorem paths_filterMap_sublist (env : String → FileMeta) :
    ∀ l : List String,
      List.Sublist
        ((l.filterMap fun f => (resolveTimestamp (env f)).map fun ts => (ts.1, f, ts.2)).map
          fun x : FileInfo => x.2.1) l
  | [] => by simp
  | a :: l => by
    rw [List.filterMap_cons]
    cases h : (resolveTimestamp (env a)).map fun ts => (ts.1, a, ts.2) with
    | none => exact (paths_filterMap_sublist env l).cons a
    | some b =>
      rcases Option.map_eq_some'.mp h with ⟨p, _, rfl⟩
      simpa using (paths_filterMap_sublist env l).cons₂ a

/-! ### Claim theorems -/

/-- C1: a catalogued snapshot file whose recency cannot be resolved (neither a
Git commit time nor a filesystem mtime) never appears in the delete-list of the
keep-newest-count policy: the fail-open invariant of lines 77-86 and 97. -/
theorem cleanup_unknown_never_deleted (env : String → FileMeta) (listing : List String)
    (n t : Nat) (s : Source) (f : String)
    (h : resolveTimestamp (env f) = none) :
    (t, f, s) ∉ files_to_delete env listing n := by
  intro hmem
  have h1 : (t, f, s) ∈ sorted_file_info env listing := List.drop_subset n _ hmem
  have h2 : (t, f, s) ∈ file_info env listing :=
    (List.perm_insertionSort descTS _).mem_iff.mp h1
  have h3 := (mem_file_info.mp h2).2
  rw [h] at h3
  exact Option.noConfusion h3

/-- Witness for C1 at a concrete directory: `sensor_u.csv` has no resolvable
recency and is absent from the delete-list even with keep-count 0. -/
theorem cleanup_unknown_never_deleted_witness :
    resolveTimestamp (envU "sensor_u.csv") = none ∧
      (5, "sensor_u.csv", Source.filesystemMtime) ∉
        files_to_delete envU ["sensor_u.csv", "sensor_r.csv"] 0 :=
  ⟨by decide,
   cleanup_unknown_never_deleted envU ["sensor_u.csv", "sensor_r.csv"] 0 5
     Source.filesystemMtime "sensor_u.csv" (by decide)⟩

/-- C2: when every discovered file resolves a timestamp and the keep-count `n`
is below the catalog size `M`, the delete-list has exactly `M - n` entries, the
keep-list exactly `n`, every kept file is at least as recent as every deleted
file, and together they exhaust the catalog (lines 93-98). -/
theorem cleanup_count_exact (env : String → FileMeta) (listing : List String) (n : Nat)
    (hall : ∀ f ∈ globSensor listing, (resolveTimestamp (env f)).isSome)
    (hn : n < (globSensor listing).length) :
    (files_to_delete env listing n).length = (globSensor listing).length - n ∧
    (files_to_keep_list env listing n).length = n ∧
    (∀ k ∈ files_to_keep_list env listing n,
      ∀ d ∈ files_to_delete env listing n, d.1 ≤ k.1) ∧
    (files_to_keep_list env listing n ++ files_to_delete env listing n).Perm
      (file_info env listing) := by
  have hlen : (file_info env listing).length = (globSensor listing).length := by
    refine length_filterMap_of_isSome _ _ fun f hf => ?_
    have := hall f hf
    simp [Option.isSome_map]
    simpa using this
  have hslen : (sorted_file_info env listing).length = (globSensor listing).length := by
    rw [sorted_file_info, List.length_insertionSort, hlen]
  refine ⟨?_, ?_, ?_, ?_⟩
  · rw [files_to_delete, List.length_drop, hslen]
  · rw [files_to_keep_list, List.length_take, hslen]
    omega
  · intro k hk d hd
    exact pairwise_take_drop (List.sorted_insertionSort descTS _) n k hk d hd
  · rw [files_to_keep_list, files_to_delete, List.take_append_drop]
    exact List.perm_insertionSort descTS _

/-- Witness for C2: two resolved files, keep-count 1. -/
theorem cleanup_count_exact_witness :
    (files_to_delete env2 ["sensor_b.csv", "sensor_a.csv"] 1).length =
      (globSensor ["sensor_b.csv", "sensor_a.csv"]).length - 1 ∧
    (files_to_keep_list env2 ["sensor_b.csv", "sensor_a.csv"] 1).length = 1 ∧
    (∀ k ∈ files_to_keep_list env2 ["sensor_b.csv", "sensor_a.csv"] 1,
      ∀ d ∈ files_to_delete env2 ["sensor_b.csv", "sensor_a.csv"] 1, d.1 ≤ k.1) ∧
    (files_to_keep_list env2 ["sensor_b.csv", "sensor_a.csv"] 1 ++
      files_to_delete env2 ["sensor_b.csv", "sensor_a.csv"] 1).Perm
      (file_info env2 ["sensor_b.csv", "sensor_a.csv"]) :=
  cleanup_count_exact env2 ["sensor_b.csv", "sensor_a.csv"] 1 (by decide) (by decide)

/-- C3: the merge removes duplicate rows under full-row equality, its output
has no duplicates and is ordered ascending by the timestamp key, it contains
exactly the rows of the concatenation, and the spec's three-file overlap
scenario produces exactly `[(1,A),(2,B),(3,C)]` (lines 120-136). -/
theorem merge_dedup_sort_correct :
    (∀ dfss : List (List Row),
      (merge_rows dfss).Nodup ∧
      List.Pairwise rowLe (merge_rows dfss) ∧
      ∀ r : Row, r ∈ merge_rows dfss ↔ r ∈ dfss.flatten) ∧
    merge_sensor_files envC3 ["sensor_2.csv", "sensor_1.csv", "sensor_3.csv"] =
      MergeResult.ok
        [[("timestamp", "1"), ("value", "A")],
         [("timestamp", "2"), ("value", "B")],
         [("timestamp", "3"), ("value", "C")]] := by
  constructor
  · intro dfss
    refine ⟨?_, ?_, ?_⟩
    · exact (List.perm_insertionSort rowLe _).nodup_iff.mpr (nodup_drop_duplicates _)
    · exact List.sorted_insertionSort rowLe _
    · intro r
      rw [merge_rows, List.mem_insertionSort, mem_drop_duplicates]
  · decide

/-- C9: recency resolution returns the Git commit time (source
`vcsCommitTime`) exactly when the file is tracked and the Git query succeeds,
and otherwise falls back to the filesystem mtime (source `filesystemMtime`)
whenever that is available (lines 67-79). -/
theorem resolveTimestamp_contract (m : FileMeta) :
    (∀ t : Nat, m.tracked = true → m.gitTime = some t →
      resolveTimestamp m = some (t, Source.vcsCommitTime)) ∧
    (∀ u : Nat, m.tracked = false ∨ m.gitTime = none → m.mtime = some u →
      resolveTimestamp m = some (u, Source.filesystemMtime)) := by
  obtain ⟨tr, gt, mt⟩ := m
  constructor
  · rintro t rfl rfl
    rfl
  · rintro u (h | h) rfl
    · subst h
      rfl
    · subst h
      cases tr <;> rfl

/-- Witness for C9 covering all three contract branches: tracked with Git
time, untracked, and tracked with a failed Git query. -/
theorem resolveTimestamp_contract_witness :
    resolveTimestamp ⟨true, some 7, some 3⟩ = some (7, Source.vcsCommitTime) ∧
    resolveTimestamp ⟨false, some 7, some 3⟩ = some (3, Source.filesystemMtime) ∧
    resolveTimestamp ⟨true, none, some 3⟩ = some (3, Source.filesystemMtime) :=
  ⟨(resolveTimestamp_contract ⟨true, some 7, some 3⟩).1 7 rfl rfl,
   (resolveTimestamp_contract ⟨false, some 7, some 3⟩).2 3 (Or.inl rfl) rfl,
   (resolveTimestamp_contract ⟨true, none, some 3⟩).2 3 (Or.inr rfl) rfl⟩

/-- C10: the canonical output name `sensor_data_combined.csv` matches the
`sensor_*.csv` discovery pattern, so once present in the data directory it is
an input file of every subsequent merge (line 114) and, whenever its recency
resolves, a catalogued entry subject to the retention count (lines 52, 67-86). -/
theorem combined_output_recycled :
    globSensorMatch "sensor_data_combined.csv" = true ∧
    (∀ listing : List String, "sensor_data_combined.csv" ∈ listing →
      "sensor_data_combined.csv" ∈ globSensor listing ∧
      "sensor_data_combined.csv" ∈ List.insertionSort pathLe (globSensor listing)) ∧
    (∀ (env : String → FileMeta) (listing : List String) (t : Nat) (s : Source),
      "sensor_data_combined.csv" ∈ listing →
      resolveTimestamp (env "sensor_data_combined.csv") = some (t, s) →
      (t, "sensor_data_combined.csv", s) ∈ file_info env listing) := by
  refine ⟨by decide, ?_, ?_⟩
  · intro listing h
    have hg : "sensor_data_combined.csv" ∈ globSensor listing :=
      List.mem_filter.mpr ⟨h, by decide⟩
    exact ⟨hg, (List.perm_insertionSort pathLe _).mem_iff.mpr hg⟩
  · intro env listing t s h hres
    exact mem_file_info.mpr ⟨List.mem_filter.mpr ⟨h, by decide⟩, hres⟩

/-- Witness for C10 on a directory that contains the canonical output. -/
theorem combined_output_recycled_witness :
    "sensor_data_combined.csv" ∈ globSensor ["sensor_data_combined.csv"] ∧
    (3, "sensor_data_combined.csv", Source.filesystemMtime) ∈
      file_info (fun _ => ⟨false, none, some 3⟩) ["sensor_data_combined.csv"] :=
  ⟨(combined_output_recycled.2.1 ["sensor_data_combined.csv"] (by decide)).1,
   combined_output_recycled.2.2 (fun _ => ⟨false, none, some 3⟩)
     ["sensor_data_combined.csv"] 3 Source.filesystemMtime (by decide) (by decide)⟩

theorem mem_paths_file_info {env : String → FileMeta} {listing : List String} {f : String} :
    (f ∈ (file_info env listing).map fun x : FileInfo => x.2.1) ↔
      f ∈ globSensor listing ∧ resolveTimestamp (env f) ≠ none := by
  constructor
  · intro hm
    rcases List.mem_map.mp hm with ⟨⟨t, g, s⟩, hmem, rfl⟩
    obtain ⟨hg, hr⟩ := mem_file_info.mp hmem
    rw [hr]
    exact ⟨hg, fun h => Option.noConfusion h⟩
  · rintro ⟨hf, hr⟩
    rcases Option.ne_none_iff_exists'.mp hr with ⟨⟨t, s⟩, hts⟩
    exact List.mem_map.mpr ⟨(t, f, s), mem_file_info.mpr ⟨hf, hts⟩, rfl⟩

/-- C4 counterexample: with keep-count 100 (the script's default), a
discovered file whose recency cannot be resolved is in neither the keep-list
nor the delete-list, so the two lists do not cover the discovered catalog. -/
theorem cleanup_partition_misses_unknown :
    "sensor_u.csv" ∈ globSensor ["sensor_u.csv", "sensor_r.csv"] ∧
    "sensor_u.csv" ∉ keepPaths envU ["sensor_u.csv", "sensor_r.csv"] 100 ∧
    "sensor_u.csv" ∉ deletePaths envU ["sensor_u.csv", "sensor_r.csv"] 100 :=
  ⟨by decide, by decide, by decide⟩

/-- C4 amended: the keep-list and delete-list are disjoint and their union is
exactly the discovered files whose recency resolved; a file with unknown
recency is skipped at lines 83-86 and appears in neither list. -/
theorem cleanup_partition_resolved (env : String → FileMeta) (listing : List String) (n : Nat)
    (hnd : listing.Nodup) :
    (∀ f : String, ¬(f ∈ keepPaths env listing n ∧ f ∈ deletePaths env listing n)) ∧
    (∀ f : String,
      (f ∈ keepPaths env listing n ∨ f ∈ deletePaths env listing n) ↔
        f ∈ globSensor listing ∧ resolveTimestamp (env f) ≠ none) := by
  have hglobnd : (globSensor listing).Nodup := hnd.filter _
  have hfnodup : ((file_info env listing).map fun x : FileInfo => x.2.1).Nodup :=
    (paths_filterMap_sublist env (globSensor listing)).nodup hglobnd
  have hperm : (sorted_file_info env listing).Perm (file_info env listing) :=
    List.perm_insertionSort descTS _
  have hpermmap := hperm.map fun x : FileInfo => x.2.1
  have hsnodup : ((sorted_file_info env listing).map fun x : FileInfo => x.2.1).Nodup :=
    hpermmap.nodup_iff.mpr hfnodup
  constructor
  · rintro f ⟨hk, hd⟩
    rw [keepPaths, files_to_keep_list, List.map_take] at hk
    rw [deletePaths, files_to_delete, List.map_drop] at hd
    exact List.disjoint_take_drop hsnodup (le_refl n) hk hd
  · intro f
    constructor
    · intro h
      have hs : f ∈ (sorted_file_info env listing).map fun x : FileInfo => x.2.1 := by
        rcases h with h | h
        · rw [keepPaths] at h
          rcases List.mem_map.mp h with ⟨x, hx, rfl⟩
          exact List.mem_map_of_mem _ (List.take_subset n _ hx)
        · rw [deletePaths] at h
          rcases List.mem_map.mp h with ⟨x, hx, rfl⟩
          exact List.mem_map_of_mem _ (List.drop_subset n _ hx)
      exact mem_paths_file_info.mp (hpermmap.mem_iff.mp hs)
    · intro h
      have hs : f ∈ (sorted_file_info env listing).map fun x : FileInfo => x.2.1 :=
        hpermmap.mem_iff.mpr (mem_paths_file_info.mpr h)
      rcases List.mem_map.mp hs with ⟨x, hx, rfl⟩
      have hx' : x ∈ (sorted_file_info env listing).take n ++
          (sorted_file_info env listing).drop n := by
        rw [List.take_append_drop]
        exact hx
      rcases List.mem_append.mp hx' with h1 | h1
      · exact Or.inl (List.mem_map_of_mem _ h1)
      · exact Or.inr (List.mem_map_of_mem _ h1)

/-- Witness for the amended C4 at the concrete two-file directory. -/
theorem cleanup_partition_resolved_witness :
    (∀ f : String, ¬(f ∈ keepPaths envU ["sensor_u.csv", "sensor_r.csv"] 100 ∧
        f ∈ deletePaths envU ["sensor_u.csv", "sensor_r.csv"] 100)) ∧
    (∀ f : String,
      (f ∈ keepPaths envU ["sensor_u.csv", "sensor_r.csv"] 100 ∨
          f ∈ deletePaths envU ["sensor_u.csv", "sensor_r.csv"] 100) ↔
        f ∈ globSensor ["sensor_u.csv", "sensor_r.csv"] ∧
          resolveTimestamp (envU f) ≠ none) :=
  cleanup_partition_resolved envU ["sensor_u.csv", "sensor_r.csv"] 100 (by decide)

/-- C5 counterexample: two files with equal resolved timestamps.  The same
catalog discovered in two different orders yields two different keep-lists,
and with discovery order `[sensor_b, sensor_a]` the lexically larger
`sensor_b.csv` is kept — the tie is not broken by path lexical order and the
partition is not reproducible from the catalog set alone. -/
theorem cleanup_tiebreak_not_lexical :
    (file_info envT ["sensor_b.csv", "sensor_a.csv"]).Perm
      (file_info envT ["sensor_a.csv", "sensor_b.csv"]) ∧
    keepPaths envT ["sensor_b.csv", "sensor_a.csv"] 1 = ["sensor_b.csv"] ∧
    keepPaths envT ["sensor_a.csv", "sensor_b.csv"] 1 = ["sensor_a.csv"] :=
  ⟨by decide, by decide, by decide⟩

/-- C5 amended: `file_info.sort(key=lambda x: x[0], reverse=True)` keys on the
timestamp alone and Python's sort is stable, so files with equal timestamps
retain their relative glob discovery order; in particular a catalog already in
newest-first discovery order is partitioned exactly at position `n` of the
discovery sequence.  Ties are therefore broken by discovery order, not by
path lexical order. -/
theorem cleanup_tiebreak_discovery_order (env : String → FileMeta)
    (listing : List String) (n : Nat) :
    (∀ a b : FileInfo, a.1 = b.1 →
      List.Sublist [a, b] (file_info env listing) →
      List.Sublist [a, b] (sorted_file_info env listing)) ∧
    (List.Pairwise descTS (file_info env listing) →
      files_to_keep_list env listing n = (file_info env listing).take n ∧
      files_to_delete env listing n = (file_info env listing).drop n) := by
  constructor
  · intro a b hab hsub
    exact List.pair_sublist_insertionSort (le_of_eq hab.symm) hsub
  · intro hs
    have heq : sorted_file_info env listing = file_info env listing :=
      List.Sorted.insertionSort_eq hs
    rw [files_to_keep_list, files_to_delete, heq]
    exact ⟨rfl, rfl⟩

/-- Witness for the amended C5 at the all-tied catalog. -/
theorem cleanup_tiebreak_discovery_order_witness :
    List.Sublist
      [(5, "sensor_b.csv", Source.filesystemMtime),
       (5, "sensor_a.csv", Source.filesystemMtime)]
      (sorted_file_info envT ["sensor_b.csv", "sensor_a.csv"]) ∧
    files_to_keep_list envT ["sensor_b.csv", "sensor_a.csv"] 1 =
      (file_info envT ["sensor_b.csv", "sensor_a.csv"]).take 1 :=
  ⟨(cleanup_tiebreak_discovery_order envT ["sensor_b.csv", "sensor_a.csv"] 1).1
     (5, "sensor_b.csv", Source.filesystemMtime)
     (5, "sensor_a.csv", Source.filesystemMtime) rfl (by decide),
   ((cleanup_tiebreak_discovery_order envT ["sensor_b.csv", "sensor_a.csv"] 1).2
     (by decide)).1⟩

/-- C7 counterexample: a row whose timestamp field is missing is NOT dropped:
the merge output contains it (sorted last, as pandas places `NaN`), and the
run neither fails nor records a warning for it (lines 120-140 have no row
validation). -/
theorem merge_keeps_missing_timestamp_row :
    merge_sensor_files envM ["sensor_b.csv", "sensor_a.csv"] =
      MergeResult.ok [[("timestamp", "1"), ("value", "A")], [("value", "B")]] ∧
    timestampKey [("value", "B")] = none :=
  ⟨by decide, by decide⟩

/-- C7 amended: the merge performs no row validation: every successfully
loaded row appears in the canonical output (up to deduplication), including
rows whose timestamp field is missing or malformed, which sort after all
timestamped rows. -/
theorem merge_drops_no_row :
    ∀ (dfss : List (List Row)) (r : Row), r ∈ merge_rows dfss ↔ r ∈ dfss.flatten := by
  intro dfss r
  rw [merge_rows, List.mem_insertionSort, mem_drop_duplicates]

/-- C8 counterexample: a directory whose only snapshot file loads successfully
but contains zero rows: no path yields any readable row, yet the merge
succeeds (returns `ok []`), contradicting the claimed `EmptyInputError`. -/
theorem merge_succeeds_with_zero_rows :
    (((List.insertionSort pathLe (globSensor ["sensor_a.csv", "notes.txt"])).filterMap
        envE).map DataFrame.rows).flatten = ([] : List Row) ∧
    merge_sensor_files envE ["sensor_a.csv", "notes.txt"] = MergeResult.ok [] :=
  ⟨by decide, by decide⟩

/-- C8 amended: the merge returns an unsuccessful result exactly when no file
matches the pattern or every matching file fails to load (lines 116-118 and
129-131); a load failure for a single file is skipped, and the merge succeeds
on the remaining loaded files whenever at least one of them carries the
timestamp column — a loaded file with zero rows counts as valid data. -/
theorem merge_failure_characterization (env : String → Option DataFrame)
    (listing : List String) :
    ((merge_sensor_files env listing = MergeResult.noFiles ∨
        merge_sensor_files env listing = MergeResult.noValidData) ↔
      (globSensor listing = [] ∨ ∀ f ∈ globSensor listing, env f = none)) ∧
    ((∃ f ∈ globSensor listing, ∃ df : DataFrame,
        env f = some df ∧ "timestamp" ∈ df.columns) →
      ∃ rows : List Row, merge_sensor_files env listing = MergeResult.ok rows) := by
  have hperm : (List.insertionSort pathLe (globSensor listing)).Perm (globSensor listing) :=
    List.perm_insertionSort pathLe _
  by_cases h1 : (List.insertionSort pathLe (globSensor listing)).isEmpty = true
  · have hg : globSensor listing = [] := by
      have hlen := hperm.length_eq
      rw [List.isEmpty_iff.mp h1] at hlen
      exact List.length_eq_zero.mp hlen.symm
    have hm : merge_sensor_files env listing = MergeResult.noFiles := by
      simp [merge_sensor_files, h1]
    constructor
    · rw [hm]
      simp [hg]
    · rintro ⟨f, hf, _⟩
      rw [hg] at hf
      exact absurd hf (List.not_mem_nil f)
  · by_cases h2 : ((List.insertionSort pathLe (globSensor listing)).filterMap env).isEmpty = true
    · have hall : ∀ f ∈ globSensor listing, env f = none := fun f hf =>
        List.filterMap_eq_nil_iff.mp (List.isEmpty_iff.mp h2) f (hperm.mem_iff.mpr hf)
      have hm : merge_sensor_files env listing = MergeResult.noValidData := by
        simp [merge_sensor_files, h1, h2]
      constructor
      · rw [hm]
        constructor
        · intro _
          exact Or.inr hall
        · intro _
          exact Or.inr rfl
      · rintro ⟨f, hf, df, hdf, _⟩
        rw [hall f hf] at hdf
        exact Option.noConfusion hdf
    · have hne : ¬∀ f ∈ globSensor listing, env f = none := by
        intro hall
        apply h2
        rw [List.isEmpty_iff]
        exact List.filterMap_eq_nil_iff.mpr fun f hf => hall f (hperm.mem_iff.mp hf)
      have hgne : ¬globSensor listing = [] := by
        intro hg
        apply h1
        rw [List.isEmpty_iff, hg]
        rfl
      constructor
      · constructor
        · intro h
          by_cases h3 : "timestamp" ∈
              (((List.insertionSort pathLe (globSensor listing)).filterMap env).map
                DataFrame.columns).flatten
          · rcases h with h | h <;> simp [merge_sensor_files, h1, h2, h3] at h
          · rcases h with h | h <;> simp [merge_sensor_files, h1, h2, h3] at h
        · intro h
          rcases h with h | h
          · exact absurd h hgne
          · exact absurd h hne
      · rintro ⟨f, hf, df, hdf, hcol⟩
        have hdfmem : df ∈ (List.insertionSort pathLe (globSensor listing)).filterMap env :=
          List.mem_filterMap.mpr ⟨f, hperm.mem_iff.mpr hf, hdf⟩
        have h3 : "timestamp" ∈
            (((List.insertionSort pathLe (globSensor listing)).filterMap env).map
              DataFrame.columns).flatten := by
          rw [List.mem_flatten]
          exact ⟨df.columns, List.mem_map_of_mem _ hdfmem, hcol⟩
        refine ⟨merge_rows (((List.insertionSort pathLe (globSensor listing)).filterMap
          env).map DataFrame.rows), ?_⟩
        simp [merge_sensor_files, h1, h2, h3]

/-- Witness for the amended C8: one loadable file with a timestamp column next
to one malformed file; the characterization holds and the merge succeeds. -/
theorem merge_failure_characterization_witness :
    ((merge_sensor_files envM ["sensor_b.csv", "sensor_a.csv"] = MergeResult.noFiles ∨
        merge_sensor_files envM ["sensor_b.csv", "sensor_a.csv"] =
          MergeResult.noValidData) ↔
      (globSensor ["sensor_b.csv", "sensor_a.csv"] = [] ∨
        ∀ f ∈ globSensor ["sensor_b.csv", "sensor_a.csv"], envM f = none)) ∧
    ∃ rows : List Row,
      merge_sensor_files envM ["sensor_b.csv", "sensor_a.csv"] = MergeResult.ok rows :=
  ⟨(merge_failure_characterization envM ["sensor_b.csv", "sensor_a.csv"]).1,
   (merge_failure_characterization envM ["sensor_b.csv", "sensor_a.csv"]).2
     ⟨"sensor_a.csv", by decide,
      ⟨["timestamp", "value"], [[("timestamp", "1"), ("value", "A")]]⟩,
      by decide, by decide⟩⟩

end ESP32Data
